import Mathlib

/-!
Verification of the EOV-WGS converter (`src/eov-wgs.py`, `src/main_improved.py`,
`src/main_refactored.py`) against its natural-language specification.

Shallow-embedding conventions:

* Python `float` values are modelled by an abstract type `F` bundled in `PyEnv`:
  `parse` models `float(s)` on a string (`none` = `ValueError`), `pyStr` models
  `str(x)` / f-string interpolation, and `fixed n x` models `f'{x:.nf}'`.
  Theorems quantify over the model; concrete witnesses instantiate `F := String`,
  representing a float by its rendered decimal text.
* The two pyproj transformers are uninterpreted parameters
  `t tK : F → F → Except String (F × F)`; an `Except.error` models the external
  library raising.
* Python exceptions are modelled by `Except String`; a `try/except Exception`
  block is the total function `tryExcept`.  In every embedded flow all raise
  points (`float`, `transform`) occur before the marker store is mutated, so
  the catch branch correctly returns the entry store.
* A folium map object is `FoliumMap`: its ordered list of rendered markers is
  what `map.save` serializes.  A named point's icon marker together with its
  `DivIcon` text-label overlay (two `folium.Marker` calls in the source) is
  modelled as a single `RenderedMarker` with `nameLabel` set, matching the
  spec's granularity of "one visual marker per Point".
* GUI widgets, signals, tiles and file dialogs are out of scope; the effect of
  a button handler is captured by the `FlowEffect` value it produces together
  with the marker store it leaves behind.
-/

/-- Model of the Python `float(s)` literal grammar used for concrete
evaluation: optional surrounding whitespace, optional sign, decimal digits
with optional fractional part and optional exponent.  (`inf`/`nan` spellings
and digit-group underscores accepted by CPython are omitted; no claim in this
development evaluates the parser on such inputs.)  First, digits are split
off a character list. -/
def splitDigits (l : List Char) : List Char × List Char :=
  (l.takeWhile (fun c => c.isDigit), l.dropWhile (fun c => c.isDigit))

/-- Recognizes an optional exponent part `([eE][+-]?digits)` ending the
literal. -/
def pyExponentOk : List Char → Bool
  | [] => true
  | c :: rest =>
    if c = 'e' ∨ c = 'E' then
      let rest2 := match rest with
        | s :: t => if s = '+' ∨ s = '-' then t else s :: t
        | [] => []
      let (d, r) := splitDigits rest2
      !d.isEmpty && r.isEmpty
    else false

/-- Recognizes `digits[.digits][exp]` or `.digits[exp]` (after the optional
sign has been consumed). -/
def pyMantissaOk (l : List Char) : Bool :=
  let (ip, r1) := splitDigits l
  match r1 with
  | [] => !ip.isEmpty
  | c :: r2 =>
    if c = '.' then
      let (fp, r3) := splitDigits r2
      (!ip.isEmpty || !fp.isEmpty) && pyExponentOk r3
    else !ip.isEmpty && pyExponentOk r1

/-- Boolean list-prefix test (kernel-computable, used by the structural
string helpers below and to decide substring containment on concrete
inputs). -/
def isPrefixB : List Char → List Char → Bool
  | [], _ => true
  | _ :: _, [] => false
  | a :: as, b :: bs => a = b && isPrefixB as bs

/-- Model of Python `str.strip()` (as the whitespace-trimming it performs on
the inputs here): drop leading and trailing whitespace.  Structural so that
the kernel can evaluate it on concrete inputs. -/
def pyStrip (s : String) : String :=
  ⟨((s.data.dropWhile Char.isWhitespace).reverse.dropWhile
      Char.isWhitespace).reverse⟩

/-- Model of Python `c in s` for a single character: the character occurs in
the string. -/
def pyCharIn (c : Char) (s : String) : Bool := s.data.contains c

/-- Fuel-driven replacement of every non-overlapping occurrence of `old`
(non-empty) by `new`, left to right, as Python `str.replace` does.  Each
step consumes at least one character, so `fuel = length` never runs out. -/
def replaceFuel (old new : List Char) : Nat → List Char → List Char
  | 0, l => l
  | _ + 1, [] => []
  | fuel + 1, c :: cs =>
    if isPrefixB old (c :: cs) then
      new ++ replaceFuel old new fuel ((c :: cs).drop old.length)
    else c :: replaceFuel old new fuel cs

/-- Model of Python `s.replace(old, new)` for the non-empty patterns used in
the source (the empty-pattern case never occurs there). -/
def pyReplace (s old new : String) : String :=
  if old.data.isEmpty then s
  else ⟨replaceFuel old.data new.data s.data.length s.data⟩

/-- Splitting a character list on a separator character, with Python
`str.split(sep)` semantics (`"".split(",") = [""]`,
`",".split(",") = ["", ""]`). -/
def splitOnChar (sep : Char) : List Char → List (List Char)
  | [] => [[]]
  | c :: cs =>
    let r := splitOnChar sep cs
    if c = sep then [] :: r
    else
      match r with
      | [] => [[c]]
      | h :: t => (c :: h) :: t

/-- Model of Python `s.split(",")`. -/
def pySplitComma (s : String) : List String :=
  (splitOnChar ',' s.data).map (fun l => ⟨l⟩)

/-- Model of Python `float(s)` succeeding on string `s`. -/
def pyFloatParses (s : String) : Bool :=
  match (pyStrip s).data with
  | '+' :: r => pyMantissaOk r
  | '-' :: r => pyMantissaOk r
  | l => pyMantissaOk l

/-- Bundle of the Python float-value model: parsing, `str()` rendering and
`f'{x:.nf}'` fixed-point rendering, plus the `MapConfig.DEFAULT_LOCATION`
constant (a pair of float literals in the source). -/
structure PyEnv (F : Type) where
  parse : String → Option F
  pyStr : F → String
  fixed : Nat → F → String
  defaultLocation : F × F

/-- Error message of `validate_eov_coordinates` for a missing EOVy field
(spec error kind `MissingField`). -/
def msgMissingY : String := "EOVy koordinátát ki kell tölteni"

/-- Error message for a missing EOVx field (spec error kind `MissingField`). -/
def msgMissingX : String := "EOVx koordinátát ki kell tölteni"

/-- Error message for a comma used as decimal separator (spec error kind
`WrongDecimalSeparator`). -/
def msgComma : String := "tizedes pontot kell használni nem vesszőt"

/-- Error message for input that fails float parsing (spec error kind
`NotNumeric`). -/
def msgNotNumeric : String := "Érvénytelen koordináták"

/-- Error message of `validate_wgs_coordinates` for a missing WGS field. -/
def msgMissingWgs : String := "Koordinátákat ki kell tölteni"

/-- Error message of `validate_wgs_coordinates` for a wrong token count. -/
def msgBadFormat : String := "Érvénytelen koordináta formátum"

/-- Embedding of `CoordinateValidator.validate_eov_coordinates`
(`main_refactored.py` lines 62-92), parameterized by the `float()` model.
Returns `(is_valid, error_message)`. -/
def validate_eov_coordinates {F : Type} (parse : String → Option F)
    (y_input x_input : String) : Bool × String :=
  if y_input = "" ∨ y_input = "pl.: 650000" then (false, msgMissingY)
  else if pyCharIn ',' y_input then (false, msgComma)
  else if x_input = "" ∨ x_input = "pl.: 240000" then (false, msgMissingX)
  else if pyCharIn ',' x_input then (false, msgComma)
  else
    match parse y_input with
    | none => (false, msgNotNumeric)
    | some _ =>
      match parse x_input with
      | none => (false, msgNotNumeric)
      | some _ => (true, "")

/-- Embedding of `CoordinateValidator.validate_wgs_coordinates`
(`main_refactored.py` lines 94-120).  Returns
`(is_valid, error_message, parsed coordinates)`. -/
def validate_wgs_coordinates {F : Type} (parse : String → Option F)
    (wgs_input : String) : Bool × String × Option (F × F) :=
  if wgs_input = "" ∨ wgs_input = "pl.: 47.50393208, 19.0474447" then
    (false, msgMissingWgs, none)
  else
    match pySplitComma (pyReplace wgs_input " " "") with
    | [a, b] =>
      match parse a, parse b with
      | some lat, some lon => (true, "", some (lat, lon))
      | _, _ => (false, msgNotNumeric, none)
    | _ => (false, msgBadFormat, none)

/-- One entry of `MapManager.markers` (the dict built in
`add_marker_with_name`, `main_refactored.py` lines 237-244): the spec's
`Point`.  `location` is `(latitude, longitude)`. -/
structure MarkerData (F : Type) where
  location : F × F
  popup : String
  tooltip : String
  point_name : String
deriving DecidableEq

/-- One marker drawn on a folium map.  `nameLabel` is `some n` when the point
has a name and the source adds the icon marker plus the `DivIcon` text-label
overlay for `n`; `none` for the plain unnamed marker. -/
structure RenderedMarker (F : Type) where
  location : F × F
  popup : String
  tooltip : String
  nameLabel : Option String
deriving DecidableEq

/-- Model of a folium map object as built by `MapManager.create_map`:
center, zoom, the `ClickForMarker` child, and the ordered markers that
`map.save` serializes. -/
structure FoliumMap (F : Type) where
  location : F × F
  zoomStart : Nat
  clickLayer : Bool
  markers : List (RenderedMarker F)
deriving DecidableEq

/-- Value of `MapConfig.DEFAULT_ZOOM`. -/
def DEFAULT_ZOOM : Nat := 13

/-- Value of `MapConfig.TILE_URL` (kept for reference; tiles are drawn by the
display widget, not by the embedded functions). -/
def TILE_URL : String :=
  "https://server.arcgisonline.com/ArcGIS/rest/services/World_Imagery/MapServer/tile/{z}/{y}/{x}"

/-- Embedding of `MapManager.create_map` (`main_refactored.py` lines
186-209): a fresh map centered on `location` with the click layer and no
markers. -/
def create_map {F : Type} (location : F × F) : FoliumMap F :=
  { location := location, zoomStart := DEFAULT_ZOOM, clickLayer := true,
    markers := [] }

/-- Rendering of one stored marker onto a map, shared by
`add_marker_with_name` and `add_all_markers_to_map`: a named point gets the
icon marker with its text-label overlay, an unnamed point the plain marker. -/
def renderMarker {F : Type} (md : MarkerData F) : RenderedMarker F :=
  if md.point_name ≠ "" then
    ⟨md.location, md.popup, md.tooltip, some md.point_name⟩
  else
    ⟨md.location, md.popup, md.tooltip, none⟩

/-- Embedding of `MapManager.add_marker_with_name` (`main_refactored.py`
lines 225-270): appends the marker data to the store and draws the marker on
the given map.  Returns the new store and the new map. -/
def add_marker_with_name {F : Type} (map_obj : FoliumMap F) (location : F × F)
    (popup tooltip point_name : String) (markers : List (MarkerData F)) :
    List (MarkerData F) × FoliumMap F :=
  let marker_data : MarkerData F :=
    { location := location, popup := popup, tooltip := tooltip,
      point_name := point_name }
  (markers ++ [marker_data],
   { map_obj with markers := map_obj.markers ++ [renderMarker marker_data] })

/-- Embedding of `MapManager.add_all_markers_to_map` (`main_refactored.py`
lines 272-309): draws every stored marker, in store order, onto the map. -/
def add_all_markers_to_map {F : Type} (map_obj : FoliumMap F)
    (markers : List (MarkerData F)) : FoliumMap F :=
  { map_obj with markers := map_obj.markers ++ markers.map renderMarker }

/-- KML document header of `generate_kml_content` (`main_refactored.py`
lines 795-800). -/
def kml_header : String :=
  "<?xml version=\"1.0\" encoding=\"UTF-8\"?>\n<kml xmlns=\"http://www.opengis.net/kml/2.2\">\n<Document>\n    <name>EOV-WGS Konverter Pontok</name>\n    <description>Exportált pontok az EOV-WGS Konverter alkalmazásból</description>\n"

/-- KML document footer of `generate_kml_content` (lines 802-804). -/
def kml_footer : String := "\n</Document>\n</kml>"

/-- Placemark name: the stored point name, or the positional fallback
`f"Pont {i+1}"` (line 813). -/
def kmlName {F : Type} (i : Nat) (md : MarkerData F) : String :=
  if md.point_name ≠ "" then md.point_name else "Pont " ++ toString (i + 1)

/-- Popup markup stripping of line 819:
`popup.replace('<b>', '').replace('</b>', '').replace('<br>', '\n')`. -/
def cleanPopup (popup : String) : String :=
  pyReplace (pyReplace (pyReplace popup "<b>" "") "</b>" "") "<br>" "\n"

/-- Literal text of the placemark template before the name element. -/
def pmPre : String := "    <Placemark>\n        "

/-- A KML `<name>` element. -/
def nameElem (n : String) : String := "<name>" ++ n ++ "</name>"

/-- A KML `<coordinates>` element: longitude first, then latitude, then `0`
(line 825). -/
def coordElem (lon lat : String) : String :=
  "<coordinates>" ++ lon ++ "," ++ lat ++ ",0</coordinates>"

/-- Literal text of the placemark template between the name element and the
coordinates element, holding the cleaned popup as description. -/
def pmBetween (clean_popup : String) : String :=
  "\n        <description>" ++ clean_popup ++ "</description>\n        <Point>\n            "

/-- Literal text of the placemark template after the coordinates element. -/
def pmTail : String := "\n        </Point>\n    </Placemark>"

/-- Rest of a placemark after its name element. -/
def pmRest {F : Type} (env : PyEnv F) (md : MarkerData F) : String :=
  pmBetween (cleanPopup md.popup) ++
    coordElem (env.pyStr md.location.2) (env.pyStr md.location.1) ++ pmTail

/-- One `<Placemark>` block of `generate_kml_content` (lines 821-827) for the
marker at 0-based index `i`: the f-string template instantiated with the
name, the cleaned popup and the `lon,lat,0` coordinates
(`lat, lon = marker_data['location']`). -/
def kml_placemark {F : Type} (env : PyEnv F) (i : Nat) (md : MarkerData F) :
    String :=
  pmPre ++ nameElem (kmlName i md) ++ pmRest env md

/-- The enumerated placemark blocks (`for i, marker_data in
enumerate(self.map_manager.markers)`), with `i` starting from `start`. -/
def kml_placemarks {F : Type} (env : PyEnv F) :
    Nat → List (MarkerData F) → List String
  | _, [] => []
  | i, md :: rest => kml_placemark env i md :: kml_placemarks env (i + 1) rest

/-- Python `sep.join(parts)`. -/
def joinSep (sep : String) : List String → String
  | [] => ""
  | [p] => p
  | p :: q :: ps => p ++ sep ++ joinSep sep (q :: ps)

/-- Embedding of `EOVWGSConverterDialog.generate_kml_content`
(`main_refactored.py` lines 793-831): header, newline-joined placemarks, and
footer. -/
def generate_kml_content {F : Type} (env : PyEnv F)
    (markers : List (MarkerData F)) : String :=
  kml_header ++ joinSep "\n" (kml_placemarks env 0 markers) ++ kml_footer

/-- Substring containment of strings, stated structurally. -/
def strContains (sub s : String) : Prop := ∃ p q : String, s = p ++ sub ++ q

/-- Boolean list-infix test. -/
def hasInfixB (sub : List Char) : List Char → Bool
  | [] => sub.isEmpty
  | b :: bs => isPrefixB sub (b :: bs) || hasInfixB sub bs

/-- Observable effect of one button-handler flow of
`EOVWGSConverterDialog`: the single user-visible outcome the handler
produces besides the marker store it leaves behind. -/
inductive FlowEffect (F : Type) where
  | errorShown (msg : String)
  | mapShown (map_obj : FoliumMap F) (outputText status : String)
  | urlOpened (url : String) (outputText status : String)
  | textShown (outputText status : String)
  | fileSaved (path content infoMsg status : String)
  | noAction
  | raisedUncaught (e : String)
deriving DecidableEq

/-- Model of Python `float(text)` on an already-modelled parse result: a
failed parse raises `ValueError`. -/
def pyFloatCall {F : Type} (text : String) (r : Option F) : Except String F :=
  match r with
  | some v => Except.ok v
  | none => Except.error ("could not convert string to float: " ++ text)

/-- Model of the `try: ... except Exception as e: show_error(f"Hiba történt:
{str(e)}")` boundary wrapping every handler of `main_refactored.py`.  In
every embedded flow body all raise points precede the store mutation, so
returning the entry store in the catch branch is exact. -/
def tryExcept {F : Type} (markers : List (MarkerData F))
    (body : Except String (FlowEffect F × List (MarkerData F))) :
    FlowEffect F × List (MarkerData F) :=
  match body with
  | Except.ok r => r
  | Except.error e => (FlowEffect.errorShown ("Hiba történt: " ++ e), markers)

/-- Body (inside `try`) of
`EOVWGSConverterDialog.convert_eov_to_wgs_and_show_map`
(`main_refactored.py` lines 562-613): validate, parse, transform, format the
output, create a fresh map, append-and-draw the new marker
(`add_marker_with_name`), then draw the whole store again
(`add_all_markers_to_map`). -/
def show_map_body {F : Type} (env : PyEnv F)
    (t : F → F → Except String (F × F)) (y_input x_input point_name_raw : String)
    (markers : List (MarkerData F)) :
    Except String (FlowEffect F × List (MarkerData F)) :=
  let v := validate_eov_coordinates env.parse y_input x_input
  if v.1 then
    match pyFloatCall y_input (env.parse y_input) with
    | Except.error e => Except.error e
    | Except.ok input_data_y =>
      match pyFloatCall x_input (env.parse x_input) with
      | Except.error e => Except.error e
      | Except.ok input_data_x =>
        match t input_data_y input_data_x with
        | Except.error e => Except.error e
        | Except.ok coords =>
          let str_output_data :=
            "WGS84 coords: (" ++ env.pyStr coords.1 ++ ", " ++
              env.pyStr coords.2 ++ ")"
          let map_obj := create_map coords
          let eovyfinal := env.fixed 5 coords.1
          let eovxfinal := env.fixed 5 coords.2
          let point_name := pyStrip point_name_raw
          let tooltip :=
            if point_name ≠ "" then
              point_name ++ "<br>" ++ eovyfinal ++ ", " ++ eovxfinal
            else eovyfinal ++ ", " ++ eovxfinal
          let popup :=
            if point_name ≠ "" then
              "<b>" ++ point_name ++ "</b><br>EOVY: " ++ env.pyStr input_data_y ++
                "<br>EOVX: " ++ env.pyStr input_data_x
            else
              "<b>EOVY: " ++ env.pyStr input_data_y ++ "<br>EOVX: " ++
                env.pyStr input_data_x ++ "</b>"
          let r := add_marker_with_name map_obj coords popup tooltip point_name
            markers
          let map2 := add_all_markers_to_map r.2 r.1
          Except.ok
            (FlowEffect.mapShown map2 str_output_data "EOV->WGS konverzió sikeres",
             r.1)
  else Except.ok (FlowEffect.errorShown v.2, markers)

/-- Embedding of `convert_eov_to_wgs_and_show_map` with its exception
boundary. -/
def convert_eov_to_wgs_and_show_map {F : Type} (env : PyEnv F)
    (t : F → F → Except String (F × F)) (y_input x_input point_name_raw : String)
    (markers : List (MarkerData F)) : FlowEffect F × List (MarkerData F) :=
  tryExcept markers (show_map_body env t y_input x_input point_name_raw markers)

/-- Body (inside `try`) of
`EOVWGSConverterDialog.convert_eov_to_wgs_and_open_google`
(`main_refactored.py` lines 615-649): validate, parse, transform, format the
output, build the Google Maps URL (its shape depends on the point name) and
open it.  The marker store is not touched. -/
def open_google_body {F : Type} (env : PyEnv F)
    (t : F → F → Except String (F × F)) (y_input x_input point_name_raw : String)
    (markers : List (MarkerData F)) :
    Except String (FlowEffect F × List (MarkerData F)) :=
  let v := validate_eov_coordinates env.parse y_input x_input
  if v.1 then
    match pyFloatCall y_input (env.parse y_input) with
    | Except.error e => Except.error e
    | Except.ok input_data_y =>
      match pyFloatCall x_input (env.parse x_input) with
      | Except.error e => Except.error e
      | Except.ok input_data_x =>
        match t input_data_y input_data_x with
        | Except.error e => Except.error e
        | Except.ok coords =>
          let str_output_data :=
            "WGS84 coords: (" ++ env.pyStr coords.1 ++ ", " ++
              env.pyStr coords.2 ++ ")"
          let point_name := pyStrip point_name_raw
          let wgsurl :=
            if point_name ≠ "" then
              "https://www.google.hu/maps/?q=" ++ point_name ++ "@" ++
                env.pyStr coords.1 ++ "," ++ env.pyStr coords.2 ++
                "&t=k&hl=hu&z=100"
            else
              "https://www.google.hu/maps/?q=loc:" ++ env.pyStr coords.1 ++
                "," ++ env.pyStr coords.2 ++ "&t=k&hl=hu&z=100"
          Except.ok
            (FlowEffect.urlOpened wgsurl str_output_data "Google Maps megnyitva",
             markers)
  else Except.ok (FlowEffect.errorShown v.2, markers)

/-- Embedding of `convert_eov_to_wgs_and_open_google` with its exception
boundary. -/
def convert_eov_to_wgs_and_open_google {F : Type} (env : PyEnv F)
    (t : F → F → Except String (F × F)) (y_input x_input point_name_raw : String)
    (markers : List (MarkerData F)) : FlowEffect F × List (MarkerData F) :=
  tryExcept markers (open_google_body env t y_input x_input point_name_raw markers)

/-- Body (inside `try`) of `EOVWGSConverterDialog.convert_wgs_to_eov`
(`main_refactored.py` lines 651-676): validate, transform, format the EOV
result string.  No map side effect, no store access. -/
def wgs_to_eov_body {F : Type} (env : PyEnv F)
    (tK : F → F → Except String (F × F)) (wgs_input : String)
    (markers : List (MarkerData F)) :
    Except String (FlowEffect F × List (MarkerData F)) :=
  let v := validate_wgs_coordinates env.parse wgs_input
  if v.1 then
    match v.2.2 with
    | none => Except.error "cannot unpack non-iterable NoneType object"
    | some coords =>
      match tK coords.1 coords.2 with
      | Except.error e => Except.error e
      | Except.ok eov_coords =>
        let eovyfinal := env.fixed 2 eov_coords.1
        let eovxfinal := env.fixed 2 eov_coords.2
        let finalcoords := "EOV koordinátak Y,X: " ++ eovyfinal ++ "," ++ eovxfinal
        Except.ok
          (FlowEffect.textShown finalcoords "WGS->EOV konverzió sikeres", markers)
  else Except.ok (FlowEffect.errorShown v.2.1, markers)

/-- Embedding of `convert_wgs_to_eov` with its exception boundary. -/
def convert_wgs_to_eov {F : Type} (env : PyEnv F)
    (tK : F → F → Except String (F × F)) (wgs_input : String)
    (markers : List (MarkerData F)) : FlowEffect F × List (MarkerData F) :=
  tryExcept markers (wgs_to_eov_body env tK wgs_input markers)

/-- Embedding of `EOVWGSConverterDialog.clear_all_markers`
(`main_refactored.py` lines 746-760): empties the store and re-renders an
empty map centered on the default location. -/
def clear_all_markers {F : Type} (env : PyEnv F)
    (_markers : List (MarkerData F)) : FlowEffect F × List (MarkerData F) :=
  (FlowEffect.mapShown (create_map env.defaultLocation) ""
    "Térkép frissítve - pontok törölve", [])

/-- Embedding of `EOVWGSConverterDialog.export_to_kml` (`main_refactored.py`
lines 762-791).  `filenameChoice` models the save-file dialog: `none` when
the user cancels (empty filename), `some f` otherwise.  An empty store is
refused before any dialog or document generation. -/
def export_to_kml {F : Type} (env : PyEnv F) (filenameChoice : Option String)
    (markers : List (MarkerData F)) : FlowEffect F × List (MarkerData F) :=
  if markers.isEmpty then
    (FlowEffect.errorShown "Nincsenek pontok az exportáláshoz", markers)
  else
    match filenameChoice with
    | none => (FlowEffect.noAction, markers)
    | some filename =>
      let kml_content := generate_kml_content env markers
      (FlowEffect.fileSaved filename kml_content
        ("KML fájl sikeresen mentve: " ++ filename)
        ("KML export: " ++ toString markers.length ++ " pont"), markers)

/-- Marker stores reachable by any sequence of user actions of
`EOVWGSConverterDialog`, starting from the empty store created in
`MapManager.__init__`. -/
inductive ReachableStore {F : Type} (env : PyEnv F)
    (t tK : F → F → Except String (F × F)) : List (MarkerData F) → Prop where
  | init : ReachableStore env t tK []
  | showMap (y x n : String) (st : List (MarkerData F)) :
      ReachableStore env t tK st →
      ReachableStore env t tK (convert_eov_to_wgs_and_show_map env t y x n st).2
  | openGoogle (y x n : String) (st : List (MarkerData F)) :
      ReachableStore env t tK st →
      ReachableStore env t tK (convert_eov_to_wgs_and_open_google env t y x n st).2
  | wgsToEov (s : String) (st : List (MarkerData F)) :
      ReachableStore env t tK st →
      ReachableStore env t tK (convert_wgs_to_eov env tK s st).2
  | clearAll (st : List (MarkerData F)) :
      ReachableStore env t tK st →
      ReachableStore env t tK (clear_all_markers env st).2
  | exportKml (choice : Option String) (st : List (MarkerData F)) :
      ReachableStore env t tK st →
      ReachableStore env t tK (export_to_kml env choice st).2

/-- Observable effect of a handler in the original `eov-wgs.py` version,
which has no exception boundary: `raised` is an exception escaping the
handler. -/
inductive V1Effect (F : Type) where
  | errorShown (msg : String)
  | mapShown (map_obj : FoliumMap F) (outputText : String)
  | raised (e : String)
deriving DecidableEq

/-- Embedding of `Ui_Dialog.button_clicked_eovtowgsmap` of `eov-wgs.py`
(lines 192-258): inline validation checks only emptiness and commas (no
numeric check, no placeholder check), then `float()` and the transform run
with no `try/except`, so their exceptions escape the handler.  The map gets
the single converted point. -/
def v1_button_clicked_eovtowgsmap {F : Type} (env : PyEnv F)
    (t : F → F → Except String (F × F)) (y_input x_input : String) :
    V1Effect F :=
  if y_input = "" then V1Effect.errorShown msgMissingY
  else if pyCharIn ',' y_input then V1Effect.errorShown msgComma
  else if x_input = "" then V1Effect.errorShown msgMissingX
  else if pyCharIn ',' x_input then V1Effect.errorShown msgComma
  else
    match pyFloatCall y_input (env.parse y_input) with
    | Except.error e => V1Effect.raised e
    | Except.ok input_data_y =>
      match pyFloatCall x_input (env.parse x_input) with
      | Except.error e => V1Effect.raised e
      | Except.ok input_data_x =>
        match t input_data_y input_data_x with
        | Except.error e => V1Effect.raised e
        | Except.ok coords =>
          let str_output_data :=
            "WGS84 coords: (" ++ env.pyStr coords.1 ++ ", " ++
              env.pyStr coords.2 ++ ")"
          let eovyfinal := env.fixed 5 coords.1
          let eovxfinal := env.fixed 5 coords.2
          let tooltip := "('" ++ eovyfinal ++ "', '" ++ eovxfinal ++ "')"
          let popup :=
            "<b>EOVY: " ++ env.pyStr input_data_y ++ "\n\tEOVX: " ++
              env.pyStr input_data_x ++ "</b>"
          let m :=
            { create_map coords with
                markers := [⟨coords, popup, tooltip, none⟩] }
          V1Effect.mapShown m str_output_data

/-- Concrete `float()` model over `F := String`: a float value is
represented by its rendered decimal text; parsing succeeds exactly on the
modelled Python float grammar and keeps the text. -/
def pyStrParse (s : String) : Option String :=
  if pyFloatParses s then some s else none

/-- Concrete `PyEnv` over `F := String` used for closed evaluations. -/
def envStr : PyEnv String :=
  { parse := pyStrParse, pyStr := id, fixed := fun _ v => v,
    defaultLocation := ("47.504105491592426", "19.046773410517797") }

/-- Concrete transformer model over `F := String` used for closed
evaluations: it returns its input pair (the claims evaluated with it do not
depend on the geodetic math). -/
def strT : String → String → Except String (String × String) :=
  fun a b => Except.ok (a, b)

/-- Markers drawn on the map a flow displayed, if it displayed one. -/
def shownMarkers {F : Type} : FlowEffect F → Option (List (RenderedMarker F))
  | FlowEffect.mapShown m _ _ => some m.markers
  | _ => none

/-- Whether a flow effect is an exception escaping the handler. -/
def isUncaught {F : Type} : FlowEffect F → Bool
  | FlowEffect.raisedUncaught _ => true
  | _ => false

/-- The point stored by one successful unnamed EOV→WGS conversion of
`(650000, 240000)` under the `String` float model. -/
def c1point : MarkerData String :=
  ⟨("650000", "240000"), "<b>EOVY: 650000<br>EOVX: 240000</b>",
    "650000, 240000", ""⟩

/-- One EOV→WGS show-map conversion of `(650000, 240000)` with no point
name, run from the empty store under the `String` float model. -/
def c1run : FlowEffect String × List (MarkerData String) :=
  convert_eov_to_wgs_and_show_map envStr strT "650000" "240000" "" []

/-- An unlabeled stored point used to evaluate the KML name fallback. -/
def c2point : MarkerData String :=
  ⟨("47.5", "19.0"), "<b>EOVY: 47.5<br>EOVX: 19.0</b>", "47.5, 19.0", ""⟩

/-- A stored point with label `"A"` at WGS84 `(47.5, 19.0)`. -/
def c4point : MarkerData String :=
  ⟨("47.5", "19.0"), "point A", "47.5, 19.0", "A"⟩

/-- Substring containment is preserved by prepending. -/
theorem strContains_appendL {sub s : String} (t : String)
    (h : strContains sub s) : strContains sub (t ++ s) := by
  rcases h with ⟨p, q, rfl⟩
  exact ⟨t ++ p, q, by simp [String.append_assoc]⟩

/-- Substring containment is preserved by appending. -/
theorem strContains_appendR {sub s : String} (t : String)
    (h : strContains sub s) : strContains sub (s ++ t) := by
  rcases h with ⟨p, q, rfl⟩
  exact ⟨p, q ++ t, by simp [String.append_assoc]⟩

/-- Substring containment is transitive. -/
theorem strContains_trans {a b c : String} (hab : strContains a b)
    (hbc : strContains b c) : strContains a c := by
  rcases hab with ⟨r, s, rfl⟩
  rcases hbc with ⟨p, q, rfl⟩
  exact ⟨p ++ r, s ++ q, by simp [String.append_assoc]⟩

/-- Every part of a joined list is contained in the join. -/
theorem strContains_joinSep {p : String} (sep : String) :
    ∀ {l : List String}, p ∈ l → strContains p (joinSep sep l) := by
  intro l
  induction l with
  | nil => intro h; cases h
  | cons x xs ih =>
    intro hp
    cases xs with
    | nil =>
      rcases List.mem_cons.mp hp with h | h
      · subst h; exact ⟨"", "", by simp [joinSep]⟩
      · cases h
    | cons y ys =>
      rcases List.mem_cons.mp hp with h | h
      · subst h
        exact ⟨"", sep ++ joinSep sep (y :: ys), by simp [joinSep, String.append_assoc]⟩
      · rcases ih h with ⟨a, b, hab⟩
        exact ⟨x ++ sep ++ a, b, by simp [joinSep, hab, String.append_assoc]⟩

/-- The placemark of the marker at index `i` appears in the enumerated
placemark list, with indices shifted by the starting index. -/
theorem kml_placemarks_mem {F : Type} (env : PyEnv F) :
    ∀ (ms : List (MarkerData F)) (k i : Nat) (md : MarkerData F),
      ms.get? i = some md →
      kml_placemark env (k + i) md ∈ kml_placemarks env k ms := by
  intro ms
  induction ms with
  | nil => intro k i md h; simp at h
  | cons hd tl ih =>
    intro k i md h
    cases i with
    | zero =>
      simp at h
      subst h
      simp [kml_placemarks]
    | succ j =>
      have h' : tl.get? j = some md := by simpa using h
      have hmem := ih (k + 1) j md h'
      have heq : k + (j + 1) = (k + 1) + j := by omega
      rw [heq]
      exact List.mem_cons_of_mem _ hmem

/-- A placemark contains its own name element. -/
theorem placemark_contains_name {F : Type} (env : PyEnv F) (i : Nat)
    (md : MarkerData F) :
    strContains (nameElem (kmlName i md)) (kml_placemark env i md) :=
  ⟨pmPre, pmRest env md, rfl⟩

/-- A placemark contains its coordinates element, longitude first. -/
theorem placemark_contains_coord {F : Type} (env : PyEnv F) (i : Nat)
    (md : MarkerData F) :
    strContains (coordElem (env.pyStr md.location.2) (env.pyStr md.location.1))
      (kml_placemark env i md) :=
  ⟨pmPre ++ nameElem (kmlName i md) ++ pmBetween (cleanPopup md.popup), pmTail,
    by simp [kml_placemark, pmRest, String.append_assoc]⟩

/-- Anything contained in the placemark of a stored marker is contained in
the generated KML document. -/
theorem generate_contains_of_placemark {F : Type} (env : PyEnv F)
    {ms : List (MarkerData F)} {i : Nat} {md : MarkerData F} {sub : String}
    (h : ms.get? i = some md)
    (hsub : strContains sub (kml_placemark env i md)) :
    strContains sub (generate_kml_content env ms) := by
  have hmem := kml_placemarks_mem env ms 0 i md h
  rw [Nat.zero_add] at hmem
  have hjoin := strContains_joinSep "\n" hmem
  have hdoc : strContains (joinSep "\n" (kml_placemarks env 0 ms))
      (generate_kml_content env ms) := ⟨kml_header, kml_footer, rfl⟩
  exact strContains_trans (strContains_trans hsub hjoin) hdoc

/-- The WGS→EOV flow never touches the marker store. -/
theorem wgs_to_eov_store {F : Type} (env : PyEnv F)
    (tK : F → F → Except String (F × F)) (wgs_input : String)
    (st : List (MarkerData F)) :
    (convert_wgs_to_eov env tK wgs_input st).2 = st := by
  unfold convert_wgs_to_eov wgs_to_eov_body tryExcept
  rcases hv : validate_wgs_coordinates env.parse wgs_input with ⟨ok, msg, co⟩
  dsimp only
  cases ok
  · rfl
  · cases co with
    | none => rfl
    | some c => rcases htk : tK c.1 c.2 with e | v <;> simp [htk]

/-- The open-in-Google-Maps flow never touches the marker store. -/
theorem open_google_store {F : Type} (env : PyEnv F)
    (t : F → F → Except String (F × F)) (y x n : String)
    (st : List (MarkerData F)) :
    (convert_eov_to_wgs_and_open_google env t y x n st).2 = st := by
  unfold convert_eov_to_wgs_and_open_google open_google_body tryExcept
  rcases hv : validate_eov_coordinates env.parse y x with ⟨ok, msg⟩
  dsimp only
  cases ok
  · rfl
  · rcases hpy : env.parse y with _ | vy
    · simp [pyFloatCall, hpy]
    · rcases hpx : env.parse x with _ | vx
      · simp [pyFloatCall, hpy, hpx]
      · rcases htk : t vy vx with e | v <;> simp [pyFloatCall, hpy, hpx, htk]

/-- The KML export flow never changes the marker store. -/
theorem export_store {F : Type} (env : PyEnv F) (choice : Option String)
    (st : List (MarkerData F)) : (export_to_kml env choice st).2 = st := by
  unfold export_to_kml
  split
  · rfl
  · cases choice <;> rfl

/-- The clear-all flow empties the marker store. -/
theorem clear_store {F : Type} (env : PyEnv F) (st : List (MarkerData F)) :
    (clear_all_markers env st).2 = [] := rfl

/-- Every marker in the store left by the show-map flow either was already
stored or carries a location produced by the EOV→WGS transform. -/
theorem show_map_store_mem {F : Type} (env : PyEnv F)
    (t : F → F → Except String (F × F)) (y x n : String)
    (st : List (MarkerData F)) :
    ∀ md ∈ (convert_eov_to_wgs_and_show_map env t y x n st).2,
      md ∈ st ∨ ∃ a b, t a b = Except.ok md.location := by
  unfold convert_eov_to_wgs_and_show_map show_map_body tryExcept
  rcases hv : validate_eov_coordinates env.parse y x with ⟨ok, msg⟩
  dsimp only
  cases ok
  · intro md h; exact Or.inl h
  · rcases hpy : env.parse y with _ | vy
    · intro md h; simp [pyFloatCall, hpy] at h; exact Or.inl h
    · rcases hpx : env.parse x with _ | vx
      · intro md h; simp [pyFloatCall, hpy, hpx] at h; exact Or.inl h
      · rcases htk : t vy vx with e | c
        · intro md h; simp [pyFloatCall, hpy, hpx, htk] at h; exact Or.inl h
        · intro md h
          simp [pyFloatCall, hpy, hpx, htk, add_marker_with_name,
            add_all_markers_to_map] at h
          rcases h with h | h
          · exact Or.inl h
          · subst h; exact Or.inr ⟨vy, vx, htk⟩

set_option maxRecDepth 8000

/-- C1 (code bug): evaluating `convert_eov_to_wgs_and_show_map` at the
failing input — one successful unnamed EOV→WGS conversion of
`(650000, 240000)` from the empty store — leaves exactly one stored point
but a rendered map carrying that point's marker twice: once drawn by
`add_marker_with_name` and once again by `add_all_markers_to_map`, whose
loop runs over the store that already contains the new point.  The claim
(and spec) say the map rendered after the N-th conversion holds exactly N
markers. -/
theorem newest_point_rendered_twice :
    c1run.2 = [c1point] ∧
    shownMarkers c1run.1 = some [renderMarker c1point, renderMarker c1point] :=
  ⟨rfl, rfl⟩

/-- C2 (counterexample): for an unlabeled stored point the generated KML
document's name element is `<name>Pont 1</name>` — the Hungarian fallback
`f"Pont {i+1}"` of the source — and the claimed `<name>Point 1</name>` does
not occur in the document. -/
theorem kml_fallback_name_is_pont_not_point :
    c2point.point_name = "" ∧
    hasInfixB "<name>Pont 1</name>".toList
      (generate_kml_content envStr [c2point]).toList = true ∧
    hasInfixB "<name>Point 1</name>".toList
      (generate_kml_content envStr [c2point]).toList = false := by
  refine ⟨rfl, by decide, by decide⟩

/-- C2 (amended): for every point of the input sequence, the generated KML
document contains a `<name>` element holding the point's label when one is
present, and otherwise the 1-based positional fallback `"Pont {index+1}"`
(not `"Point {index+1}"` as the claim stated). -/
theorem kml_name_label_or_pont_fallback : ∀ {F : Type} (env : PyEnv F)
    (ms : List (MarkerData F)) (i : Nat) (md : MarkerData F),
    ms.get? i = some md →
    (md.point_name = "" →
      strContains (nameElem ("Pont " ++ toString (i + 1)))
        (generate_kml_content env ms)) ∧
    (md.point_name ≠ "" →
      strContains (nameElem md.point_name) (generate_kml_content env ms)) := by
  intro F env ms i md h
  constructor
  · intro hpn
    have hc := generate_contains_of_placemark env h (placemark_contains_name env i md)
    simpa [kmlName, hpn] using hc
  · intro hpn
    have hc := generate_contains_of_placemark env h (placemark_contains_name env i md)
    simpa [kmlName, hpn] using hc

/-- C2 (witness): the amended theorem applied to a singleton store holding
one unlabeled point yields the `<name>Pont 1</name>` element in the
document. -/
theorem kml_name_label_or_pont_fallback_witness :
    strContains (nameElem ("Pont " ++ toString (0 + 1)))
      (generate_kml_content envStr [c2point]) :=
  (kml_name_label_or_pont_fallback envStr [c2point] 0 c2point rfl).1 rfl

/-- C3 (counterexample): `validateEOV("650,000", "")` returns the
wrong-decimal-separator error even though the second input is empty, so the
claim's "fails with MissingField whenever either input string is empty"
is false: the comma check on EOVy precedes the emptiness check on EOVx. -/
theorem validate_eov_checks_are_ordered_counterexample :
    validate_eov_coordinates pyStrParse "650,000" "" = (false, msgComma) ∧
    validate_eov_coordinates pyStrParse "650,000" "" ≠ (false, msgMissingX) ∧
    validate_eov_coordinates pyStrParse "650,000" "" ≠ (false, msgMissingY) := by
  refine ⟨rfl, by decide, by decide⟩

/-- C3 (amended): `validate_eov_coordinates` applies its checks in source
order — EOVy missing/placeholder, comma in EOVy, EOVx missing/placeholder,
comma in EOVx, then float parsing of both — and each error kind is returned
exactly when its check is the first to fire; in particular
`validateEOV("", "240000")` yields the missing-field error and
`validateEOV("650,000", "240000")` yields the wrong-decimal-separator
error. -/
theorem validate_eov_error_characterization : ∀ {F : Type}
    (parse : String → Option F) (y x : String),
    (validate_eov_coordinates parse y x = (false, msgMissingY) ↔
      (y = "" ∨ y = "pl.: 650000")) ∧
    (validate_eov_coordinates parse y x = (false, msgMissingX) ↔
      (¬(y = "" ∨ y = "pl.: 650000") ∧ pyCharIn ',' y = false ∧
        (x = "" ∨ x = "pl.: 240000"))) ∧
    (validate_eov_coordinates parse y x = (false, msgComma) ↔
      (¬(y = "" ∨ y = "pl.: 650000") ∧
        (pyCharIn ',' y = true ∨
          (pyCharIn ',' y = false ∧ ¬(x = "" ∨ x = "pl.: 240000") ∧
            pyCharIn ',' x = true)))) ∧
    (validate_eov_coordinates parse y x = (false, msgNotNumeric) ↔
      (¬(y = "" ∨ y = "pl.: 650000") ∧ pyCharIn ',' y = false ∧
        ¬(x = "" ∨ x = "pl.: 240000") ∧ pyCharIn ',' x = false ∧
        (parse y = none ∨ parse x = none))) ∧
    (validate_eov_coordinates parse y x = (true, "") ↔
      (¬(y = "" ∨ y = "pl.: 650000") ∧ pyCharIn ',' y = false ∧
        ¬(x = "" ∨ x = "pl.: 240000") ∧ pyCharIn ',' x = false ∧
        (parse y).isSome = true ∧ (parse x).isSome = true)) ∧
    validate_eov_coordinates parse "" "240000" = (false, msgMissingY) ∧
    validate_eov_coordinates parse "650,000" "240000" = (false, msgComma) := by
  intro F parse y x
  refine ⟨?_, ?_, ?_, ?_, ?_, rfl, rfl⟩ <;>
  · unfold validate_eov_coordinates
    split_ifs with h1 h2 h3 h4 <;>
      rcases hpy : parse y with _ | vy <;> rcases hpx : parse x with _ | vx <;>
      simp_all [msgMissingY, msgMissingX, msgComma, msgNotNumeric]

/-- C4: every placemark's `<coordinates>` element is written
longitude-first as `lon,lat,0`; in particular, exporting the single point
with location `(47.5, 19.0)` and label `"A"` yields a document containing
`<name>A</name>` and `<coordinates>19.0,47.5,0</coordinates>`. -/
theorem kml_coordinates_lon_first : (∀ {F : Type} (env : PyEnv F)
    (ms : List (MarkerData F)) (i : Nat) (md : MarkerData F),
    ms.get? i = some md →
    strContains (coordElem (env.pyStr md.location.2) (env.pyStr md.location.1))
      (generate_kml_content env ms)) ∧
    strContains (nameElem "A") (generate_kml_content envStr [c4point]) ∧
    strContains (coordElem "19.0" "47.5") (generate_kml_content envStr [c4point]) := by
  refine ⟨?_, ?_, ?_⟩
  · intro F env ms i md h
    exact generate_contains_of_placemark env h (placemark_contains_coord env i md)
  · exact @generate_contains_of_placemark String envStr [c4point] 0 c4point
      (nameElem (kmlName 0 c4point)) rfl (placemark_contains_name envStr 0 c4point)
  · exact @generate_contains_of_placemark String envStr [c4point] 0 c4point
      (coordElem (envStr.pyStr c4point.location.2) (envStr.pyStr c4point.location.1))
      rfl (placemark_contains_coord envStr 0 c4point)

/-- C4 (witness): the universal part applied to the singleton store holding
the labelled point at `(47.5, 19.0)`. -/
theorem kml_coordinates_lon_first_witness :
    strContains
      (coordElem (envStr.pyStr c4point.location.2) (envStr.pyStr c4point.location.1))
      (generate_kml_content envStr [c4point]) :=
  kml_coordinates_lon_first.1 envStr [c4point] 0 c4point rfl

/-- C5: invoking the KML export flow on an empty store produces exactly the
no-points error and never a saved document, for every float model and every
file-dialog outcome. -/
theorem export_empty_store_refused : ∀ {F : Type} (env : PyEnv F)
    (choice : Option String),
    export_to_kml env choice ([] : List (MarkerData F)) =
      (FlowEffect.errorShown "Nincsenek pontok az exportáláshoz", []) ∧
    ∀ (path content infoMsg status : String) (st' : List (MarkerData F)),
      export_to_kml env choice ([] : List (MarkerData F)) ≠
        (FlowEffect.fileSaved path content infoMsg status, st') := by
  intro F env choice
  refine ⟨rfl, ?_⟩
  intro path content infoMsg status st' hEq
  exact FlowEffect.noConfusion (congrArg Prod.fst hEq)

/-- C6: in every reachable state of the dialog, every stored point's
location is an output of the EOV→WGS transform — no flow ever stores a
location that did not come from `t`. -/
theorem stored_points_are_transform_outputs : ∀ {F : Type} (env : PyEnv F)
    (t tK : F → F → Except String (F × F)) (st : List (MarkerData F)),
    ReachableStore env t tK st →
    ∀ md ∈ st, ∃ a b, t a b = Except.ok md.location := by
  intro F env t tK st h
  induction h with
  | init => intro md hm; cases hm
  | showMap y x n st h ih =>
    intro md hm
    rcases show_map_store_mem env t y x n st md hm with hm' | hex
    · exact ih md hm'
    · exact hex
  | openGoogle y x n st h ih =>
    intro md hm
    rw [open_google_store env t y x n st] at hm
    exact ih md hm
  | wgsToEov s st h ih =>
    intro md hm
    rw [wgs_to_eov_store env tK s st] at hm
    exact ih md hm
  | clearAll st h ih =>
    intro md hm
    rw [clear_store env st] at hm
    cases hm
  | exportKml choice st h ih =>
    intro md hm
    rw [export_store env choice st] at hm
    exact ih md hm

/-- C6 (witness): the invariant applied to the store reached by one
successful conversion of `(650000, 240000)` under the `String` float
model. -/
theorem stored_points_are_transform_outputs_witness :
    ∃ a b, strT a b = Except.ok (("650000" : String), ("240000" : String)) :=
  stored_points_are_transform_outputs envStr strT strT
    (convert_eov_to_wgs_and_show_map envStr strT "650000" "240000" "" []).2
    (ReachableStore.showMap "650000" "240000" "" [] ReachableStore.init)
    c1point (by decide)

/-- C7 (counterexample): in the original `eov-wgs.py` version the EOV→WGS
map flow validates only emptiness and commas, so the non-numeric input
`("abc", "1")` reaches `float()` and the `ValueError` escapes the handler —
an exception propagates past the flow boundary. -/
theorem v1_uncaught_exception_on_nonnumeric :
    v1_button_clicked_eovtowgsmap envStr strT "abc" "1" =
      V1Effect.raised "could not convert string to float: abc" := rfl

/-- C7 (amended): in `main_refactored.py` every flow — both conversions,
clear, and export — is wrapped in an exception boundary, so for every
input, every float model and every transformer behavior (including raising)
the flow's effect is never an uncaught exception; failures surface as the
single message carried by the effect. -/
theorem refactored_flows_never_raise : ∀ {F : Type} (env : PyEnv F)
    (t tK : F → F → Except String (F × F)) (y x n s : String)
    (choice : Option String) (st : List (MarkerData F)),
    isUncaught (convert_eov_to_wgs_and_show_map env t y x n st).1 = false ∧
    isUncaught (convert_eov_to_wgs_and_open_google env t y x n st).1 = false ∧
    isUncaught (convert_wgs_to_eov env tK s st).1 = false ∧
    isUncaught (clear_all_markers env st).1 = false ∧
    isUncaught (export_to_kml env choice st).1 = false := by
  intro F env t tK y x n s choice st
  refine ⟨?_, ?_, ?_, rfl, ?_⟩
  · unfold convert_eov_to_wgs_and_show_map show_map_body tryExcept
    rcases hv : validate_eov_coordinates env.parse y x with ⟨ok, msg⟩
    dsimp only
    cases ok
    · rfl
    · rcases hpy : env.parse y with _ | vy
      · simp [pyFloatCall, hpy, isUncaught]
      · rcases hpx : env.parse x with _ | vx
        · simp [pyFloatCall, hpy, hpx, isUncaught]
        · rcases htk : t vy vx with e | c <;>
            simp [pyFloatCall, hpy, hpx, htk, isUncaught]
  · unfold convert_eov_to_wgs_and_open_google open_google_body tryExcept
    rcases hv : validate_eov_coordinates env.parse y x with ⟨ok, msg⟩
    dsimp only
    cases ok
    · rfl
    · rcases hpy : env.parse y with _ | vy
      · simp [pyFloatCall, hpy, isUncaught]
      · rcases hpx : env.parse x with _ | vx
        · simp [pyFloatCall, hpy, hpx, isUncaught]
        · rcases htk : t vy vx with e | c <;>
            simp [pyFloatCall, hpy, hpx, htk, isUncaught]
  · unfold convert_wgs_to_eov wgs_to_eov_body tryExcept
    rcases hv : validate_wgs_coordinates env.parse s with ⟨ok, msg, co⟩
    dsimp only
    cases ok
    · rfl
    · cases co with
      | none => rfl
      | some c => rcases htk : tK c.1 c.2 with e | v <;> simp [htk, isUncaught]
  · unfold export_to_kml
    split
    · rfl
    · cases choice <;> rfl

/-- C9: the WGS→EOV flow and the open-in-Google-Maps flow leave the marker
store unchanged for every input, float model and transformer behavior. -/
theorem wgs_and_google_flows_preserve_store : ∀ {F : Type} (env : PyEnv F)
    (t tK : F → F → Except String (F × F)) (y x n s : String)
    (st : List (MarkerData F)),
    (convert_wgs_to_eov env tK s st).2 = st ∧
    (convert_eov_to_wgs_and_open_google env t y x n st).2 = st :=
  fun env t tK y x n s st =>
    ⟨wgs_to_eov_store env tK s st, open_google_store env t y x n st⟩

/-- C10: on an empty store the KML generator itself still returns the
well-formed document made of the fixed header and footer with zero
`<Placemark>` elements; the refusal to export an empty store lives only in
the calling flow, which errors out before generating anything. -/
theorem empty_store_kml_generator_total : ∀ {F : Type} (env : PyEnv F)
    (choice : Option String),
    generate_kml_content env ([] : List (MarkerData F)) =
      kml_header ++ kml_footer ∧
    hasInfixB "<Placemark>".toList (kml_header ++ kml_footer).toList = false ∧
    export_to_kml env choice ([] : List (MarkerData F)) =
      (FlowEffect.errorShown "Nincsenek pontok az exportáláshoz", []) := by
  intro F env choice
  refine ⟨?_, by decide, rfl⟩
  simp [generate_kml_content, kml_placemarks, joinSep]
